import Mathlib

/-!
Shallow embedding of the BeachScore scoring and windowing engine
(`src/lib/scoring/weights.ts`, `src/lib/scoring/beach-score.ts`,
`src/lib/scoring/windows.ts`, data model from `src/lib/models/conditions.ts`
and `src/lib/models/beach.ts`).

Modelling conventions:
* JS numbers are modelled as `ℚ` (the code only performs field arithmetic
  and comparisons on them); `Date` values are modelled by their millisecond
  epoch value (`Date.getTime()`), also as `ℚ`.
* `Math.round` rounds half toward positive infinity, i.e. `⌊x + 1/2⌋`.
* JS division produces `NaN` for `0/0`; the single reachable division in the
  engine (`deviation / (range / 2)` in `calculateTempScore`) divides by zero
  exactly when the user range is degenerate, in which case the numerator is
  zero as well, so the JS result is `NaN`.  `NaN` is modelled as `none` of an
  `Option` and propagated through the later arithmetic and comparisons
  (every JS comparison with `NaN` is false).
* TS optional fields / possibly-absent object members are `Option`s.
* `Array.prototype.sort` is a stable sort; for the total preorder comparators
  used by the generator a stable sort has a unique result, so it is embedded
  as `List.insertionSort` (stable, executable).
-/

/-! ## JS number helpers -/

/-- `Math.round`: round half toward positive infinity. -/
def jsRound (q : ℚ) : ℤ := ⌊q + 1/2⌋

/-- JS division where a zero denominator yields `NaN` (modelled `none`).
At the one call site in the engine the numerator is forced to be zero
whenever the denominator is, so `none` faithfully stands for JS `NaN`. -/
def jsDiv (a b : ℚ) : Option ℚ := if b = 0 then none else some (a / b)

/-- JS `x >= c` where `x` may be `NaN` (`none`): any comparison with `NaN` is false. -/
def jsGe (x : Option ℚ) (c : ℚ) : Bool :=
  match x with
  | some v => if c ≤ v then true else false
  | none => false

/-- JS `x < c` where `x` may be `NaN` (`none`). -/
def jsLt (x : Option ℚ) (c : ℚ) : Bool :=
  match x with
  | some v => if v < c then true else false
  | none => false

/-- JS `x > c` on a possibly-`NaN` integer score. -/
def jsGtI (x : Option ℤ) (c : ℤ) : Bool :=
  match x with
  | some v => decide (c < v)
  | none => false

/-- JS `x <= c` on a possibly-`NaN` integer score. -/
def jsLeI (x : Option ℤ) (c : ℤ) : Bool :=
  match x with
  | some v => decide (v ≤ c)
  | none => false

/-- JS `x >= c` on a possibly-`NaN` integer score. -/
def jsGeI (x : Option ℤ) (c : ℤ) : Bool :=
  match x with
  | some v => decide (c ≤ v)
  | none => false

/-- JS `Math.min` on a possibly-`NaN` score (`Math.min(NaN, c)` is `NaN`). -/
def jsMinI (x : Option ℤ) (c : ℤ) : Option ℤ := x.map (fun v => min v c)

/-! ## Data model (`src/lib/models/conditions.ts`, `src/lib/models/beach.ts`) -/

/-- Badge `type` field (positive | neutral | warning | negative). -/
inductive BadgeType where
  | positive
  | neutral
  | warning
  | negative
deriving DecidableEq

/-- `Badge` from `conditions.ts`. -/
structure Badge where
  id : String
  label : String
  icon : String
  type : BadgeType
deriving DecidableEq

/-- `ConditionSnapshot` from `conditions.ts` (fields the scoring core never
reads — `beach`, `humidity` is read-modelled anyway, `windDirection`, `uvMax`,
`tideHeight`, `nextTideEvent`, `weatherDescription`, `sunExposure` — are kept
only where a claim's scenario mentions them).  `tideType` is a string in the
engine's `switch` (which has a fallback branch for unrecognized values). -/
structure ConditionSnapshot where
  timestamp : ℚ
  temp : ℚ
  feelsLike : ℚ
  humidity : ℚ
  cloudCover : ℚ
  weatherCode : String
  windSpeed : ℚ
  windGust : Option ℚ
  uvIndex : ℚ
  tideType : String
  sunrise : Option ℚ
  sunset : Option ℚ
deriving DecidableEq

/-- `ActivityGoal` union from `beach.ts`. -/
inductive ActivityGoal where
  | chill
  | swim
  | walk
  | photography
  | shelling
  | reading
deriving DecidableEq, BEq

/-- `tempRange` member of `UserPreferences`. -/
structure TempRange where
  min : ℚ
  max : ℚ
deriving DecidableEq

/-- `UserPreferences` from `beach.ts`.  The scoring code reads every one of
`tempRange`, `windTolerance`, `activityGoals` defensively (`?.`), and the
route layer builds partial preference objects, so those members are optional
here (`activityGoals` absent behaves exactly like the empty list in
`includes`, so it is a plain list). -/
structure UserPreferences where
  tempRange : Option TempRange
  windTolerance : Option ℚ
  activityGoals : List ActivityGoal

/-- `ScoreWeights` from `weights.ts`. -/
structure ScoreWeights where
  temp : ℚ
  uv : ℚ
  wind : ℚ
  tide : ℚ
  weather : ℚ
deriving DecidableEq

/-- `ScoreBreakdown` from `conditions.ts`; `tempScore` and `totalScore` may be
JS `NaN` (see module comment), the other sub-scores never are. -/
structure ScoreBreakdown where
  tempScore : Option ℚ
  uvScore : ℚ
  windScore : ℚ
  tideScore : ℚ
  weatherScore : ℚ
  totalScore : Option ℤ
  weights : ScoreWeights

/-- `Window` from `conditions.ts`. -/
structure Window where
  id : String
  startTime : ℚ
  endTime : ℚ
  score : Option ℤ
  badges : List Badge
  conditions : ConditionSnapshot
  isGoNow : Bool

/-- `ScoredWindow` from `conditions.ts`. -/
structure ScoredWindow where
  window : Window
  scoreBreakdown : ScoreBreakdown

/-! ## `weights.ts` constants -/

def DEFAULT_WEIGHTS : ScoreWeights :=
  { temp := 0.30, uv := 0.25, wind := 0.25, tide := 0.10, weather := 0.10 }

structure TempBand where
  min : ℚ
  max : ℚ

structure TempThresholds where
  optimal : TempBand
  good : TempBand
  acceptable : TempBand
  poor : TempBand

def TEMP_THRESHOLDS : TempThresholds :=
  { optimal := ⟨80, 90⟩, good := ⟨75, 95⟩, acceptable := ⟨70, 98⟩, poor := ⟨65, 100⟩ }

structure UvThresholds where
  low : ℚ
  moderate : ℚ
  high : ℚ
  veryHigh : ℚ
  extreme : ℚ

def UV_THRESHOLDS : UvThresholds :=
  { low := 2, moderate := 5, high := 7, veryHigh := 10, extreme := 11 }

structure WindThresholds where
  calm : ℚ
  light : ℚ
  moderate : ℚ
  fresh : ℚ
  strong : ℚ
  veryStrong : ℚ

def WIND_THRESHOLDS : WindThresholds :=
  { calm := 5, light := 10, moderate := 15, fresh := 20, strong := 25, veryStrong := 30 }

/-- `WEATHER_SCORES` record entries, in source order. -/
def WEATHER_SCORES_ENTRIES : List (String × ℚ) :=
  [("01d", 100), ("01n", 100), ("02d", 90), ("02n", 90), ("03d", 80), ("03n", 80),
   ("04d", 70), ("04n", 70), ("09d", 30), ("09n", 30), ("10d", 20), ("10n", 20),
   ("11d", 10), ("11n", 10), ("13d", 40), ("13n", 40), ("50d", 60), ("50n", 60)]

/-- `WEATHER_SCORES[code]`: record lookup, `none` for a missing key. -/
def WEATHER_SCORES (code : String) : Option ℚ :=
  (WEATHER_SCORES_ENTRIES.find? (fun kv => if kv.1 = code then true else false)).map
    (fun kv => kv.2)

/-! ## `beach-score.ts` -/

/-- `calculateTempScore`.  The user-supplied-range branch divides by
`range / 2`; when the range is degenerate (`min = max`) and `feelsLike` sits
inside it, JS computes `0 / 0 = NaN` (modelled through `jsDiv`). -/
def calculateTempScore (temp feelsLike : ℚ) (preferences : Option UserPreferences) :
    Option ℚ :=
  let effectiveTemp := feelsLike
  match preferences.bind (fun p => p.tempRange) with
  | some r =>
      let mid := (r.min + r.max) / 2
      let range := r.max - r.min
      if r.min ≤ effectiveTemp ∧ effectiveTemp ≤ r.max then
        (jsDiv |effectiveTemp - mid| (range / 2)).map (fun u => 100 - u * 20)
      else if effectiveTemp < r.min then
        some (max 0 (80 - (r.min - effectiveTemp) * 10))
      else
        some (max 0 (80 - (effectiveTemp - r.max) * 10))
  | none =>
      some (
        if TEMP_THRESHOLDS.optimal.min ≤ effectiveTemp ∧ effectiveTemp ≤ TEMP_THRESHOLDS.optimal.max then
          100
        else if TEMP_THRESHOLDS.good.min ≤ effectiveTemp ∧ effectiveTemp ≤ TEMP_THRESHOLDS.good.max then
          if effectiveTemp < TEMP_THRESHOLDS.optimal.min then
            100 - (TEMP_THRESHOLDS.optimal.min - effectiveTemp) * 2
          else
            100 - (effectiveTemp - TEMP_THRESHOLDS.optimal.max) * 2
        else if TEMP_THRESHOLDS.acceptable.min ≤ effectiveTemp ∧ effectiveTemp ≤ TEMP_THRESHOLDS.acceptable.max then
          if effectiveTemp < TEMP_THRESHOLDS.good.min then 70 else 70
        else if TEMP_THRESHOLDS.poor.min ≤ effectiveTemp ∧ effectiveTemp ≤ TEMP_THRESHOLDS.poor.max then
          40
        else
          20)

/-- `calculateUVScore`. -/
def calculateUVScore (uvIndex : ℚ) : ℚ :=
  if uvIndex ≤ UV_THRESHOLDS.low then 100
  else if uvIndex ≤ UV_THRESHOLDS.moderate then 80
  else if uvIndex ≤ UV_THRESHOLDS.high then 60
  else if uvIndex ≤ UV_THRESHOLDS.veryHigh then 40
  else 20

/-- `calculateWindScore`.  `windGust && windGust > windSpeed + 5` treats a
zero gust as falsy, and `preferences?.windTolerance || WIND_THRESHOLDS.strong`
treats a zero tolerance as falsy. -/
def calculateWindScore (windSpeed : ℚ) (windGust : Option ℚ)
    (preferences : Option UserPreferences) : ℚ :=
  let effectiveWind :=
    match windGust with
    | some g => if g ≠ 0 ∧ windSpeed + 5 < g then g else windSpeed
    | none => windSpeed
  let maxTolerable :=
    match preferences.bind (fun p => p.windTolerance) with
    | some t => if t = 0 then WIND_THRESHOLDS.strong else t
    | none => WIND_THRESHOLDS.strong
  if maxTolerable < effectiveWind then 20
  else if effectiveWind < WIND_THRESHOLDS.calm then 100
  else if effectiveWind < WIND_THRESHOLDS.light then 90
  else if effectiveWind < WIND_THRESHOLDS.moderate then 70
  else if effectiveWind < WIND_THRESHOLDS.fresh then 50
  else if effectiveWind < WIND_THRESHOLDS.strong then 30
  else 20

/-- `calculateTideScore` (`switch` on the tide-type string with a default branch). -/
def calculateTideScore (tideType : String) : ℚ :=
  if tideType = "slack" then 100
  else if tideType = "low" then 90
  else if tideType = "rising" ∨ tideType = "falling" then 80
  else if tideType = "high" then 70
  else 80

/-- `calculateWeatherScore`.  `WEATHER_SCORES[weatherCode] || 50` — the table
holds no falsy values, so `||` is exactly the missing-key default. -/
def calculateWeatherScore (weatherCode : String) (cloudCover : ℚ) : ℚ :=
  let baseScore := (WEATHER_SCORES weatherCode).getD 50
  if 75 < cloudCover ∧ 70 < baseScore then baseScore - 10 else baseScore

/-- `customizeWeights`. -/
def customizeWeights (preferences : UserPreferences) : ScoreWeights :=
  let w := DEFAULT_WEIGHTS
  let w :=
    if preferences.activityGoals.contains ActivityGoal.photography then
      { w with weather := 0.20, uv := 0.15 }
    else w
  let w :=
    if preferences.activityGoals.contains ActivityGoal.swim then
      { w with tide := 0.15, temp := 0.35, wind := 0.20 }
    else w
  let sum := w.temp + w.uv + w.wind + w.tide + w.weather
  { temp := w.temp / sum, uv := w.uv / sum, wind := w.wind / sum,
    tide := w.tide / sum, weather := w.weather / sum }

/-- `generateBadges`: each category pushes at most one badge, in source order. -/
def generateBadges (conditions : ConditionSnapshot) (breakdown : ScoreBreakdown) :
    List Badge :=
  let tempBadges :=
    if jsGe breakdown.tempScore 90 then
      [{ id := "temp-perfect", label := "Perfect temp", icon := "🌡️", type := BadgeType.positive }]
    else if jsLt breakdown.tempScore 50 then
      if conditions.feelsLike < 70 then
        [{ id := "temp-cold", label := "Cool weather", icon := "🥶", type := BadgeType.warning }]
      else
        [{ id := "temp-hot", label := "Very hot", icon := "🥵", type := BadgeType.warning }]
    else []
  let uvBadges :=
    if conditions.uvIndex ≤ 2 then
      [{ id := "uv-low", label := "Low UV", icon := "☀️", type := BadgeType.positive }]
    else if 8 ≤ conditions.uvIndex then
      [{ id := "uv-high", label := "High UV—SPF 50+", icon := "🧴", type := BadgeType.warning }]
    else if 6 ≤ conditions.uvIndex then
      [{ id := "uv-moderate", label := "Bring sunscreen", icon := "🧴", type := BadgeType.neutral }]
    else []
  let windBadges :=
    if conditions.windSpeed < 5 then
      [{ id := "wind-calm", label := "Gentle breeze", icon := "🍃", type := BadgeType.positive }]
    else if 15 ≤ conditions.windSpeed then
      [{ id := "wind-strong",
         label := if 20 ≤ conditions.windSpeed then "Very windy" else "Breezy",
         icon := "💨", type := BadgeType.warning }]
    else []
  let tideBadges :=
    if conditions.tideType = "slack" ∨ conditions.tideType = "low" then
      [{ id := "tide-good",
         label := if conditions.tideType = "slack" then "Slack tide" else "Low tide",
         icon := "🌊", type := BadgeType.positive }]
    else []
  let weatherBadges :=
    if conditions.weatherCode.startsWith "01" ∨ conditions.weatherCode.startsWith "02" then
      [{ id := "weather-clear", label := "Clear skies", icon := "☀️", type := BadgeType.positive }]
    else if conditions.weatherCode.startsWith "09" ∨ conditions.weatherCode.startsWith "10" then
      [{ id := "weather-rain", label := "Rain expected", icon := "🌧️", type := BadgeType.negative }]
    else if conditions.weatherCode.startsWith "11" then
      [{ id := "weather-storm", label := "Thunderstorms", icon := "⛈️", type := BadgeType.negative }]
    else []
  tempBadges ++ uvBadges ++ windBadges ++ tideBadges ++ weatherBadges

/-- `preferences ? customizeWeights(preferences) : DEFAULT_WEIGHTS` (line 24). -/
def resolveWeights (preferences : Option UserPreferences) : ScoreWeights :=
  match preferences with
  | some p => customizeWeights p
  | none => DEFAULT_WEIGHTS

/-- `calculateBeachScore`.  Note (source line 29): the call to
`calculateWindScore` passes only `(conditions.windSpeed, conditions.windGust)`
— the caller's `preferences` are NOT forwarded, so the third argument is
`none` here. -/
def calculateBeachScore (conditions : ConditionSnapshot)
    (preferences : Option UserPreferences) : ScoredWindow :=
  let weights := resolveWeights preferences
  let tempScore := calculateTempScore conditions.temp conditions.feelsLike preferences
  let uvScore := calculateUVScore conditions.uvIndex
  let windScore := calculateWindScore conditions.windSpeed conditions.windGust none
  let tideScore := calculateTideScore conditions.tideType
  let weatherScore := calculateWeatherScore conditions.weatherCode conditions.cloudCover
  let totalScore := tempScore.map (fun t =>
    jsRound (t * weights.temp + uvScore * weights.uv + windScore * weights.wind +
      tideScore * weights.tide + weatherScore * weights.weather))
  let breakdown : ScoreBreakdown :=
    { tempScore := tempScore, uvScore := uvScore, windScore := windScore,
      tideScore := tideScore, weatherScore := weatherScore,
      totalScore := totalScore, weights := weights }
  let badges := generateBadges conditions breakdown
  let window : Window :=
    { id := "window-" ++ toString conditions.timestamp,
      startTime := conditions.timestamp,
      endTime := conditions.timestamp + 3 * 60 * 60 * 1000,
      score := totalScore,
      badges := badges,
      conditions := conditions,
      isGoNow := false }
  { window := window, scoreBreakdown := breakdown }

/-! ## `windows.ts` -/

/-- `WindowOptions` with the merge `{...DEFAULT_OPTIONS, ...options}` already
performed (a claim's "options" is a fully resolved `WindowOptions`).
`count` is used only as an iteration bound, hence `ℕ`. -/
structure WindowOptions where
  duration : ℚ
  count : ℕ
  preferences : Option UserPreferences

def DEFAULT_OPTIONS : WindowOptions :=
  { duration := 3, count := 16, preferences := none }

/-- The nighttime badge pushed by `generateWindows`. -/
def nighttimeBadge : Badge :=
  { id := "nighttime", label := "🌙 Nighttime", icon := "🌙", type := BadgeType.negative }

/-- Loop body of `generateWindows` for one non-past snapshot: score it, apply
nighttime suppression when sunrise/sunset are present, then set the window
duration. -/
def processSnapshot (opts : WindowOptions) (snapshot : ConditionSnapshot) : Window :=
  let scored := calculateBeachScore snapshot opts.preferences
  let w := scored.window
  let w :=
    match snapshot.sunrise, snapshot.sunset with
    | some sunriseTime, some sunsetTime =>
        let windowStart := snapshot.timestamp
        let windowEnd := windowStart + opts.duration * 60 * 60 * 1000
        if sunsetTime ≤ windowStart ∨ windowEnd ≤ sunriseTime then
          { w with badges := w.badges ++ [nighttimeBadge],
                   score := jsMinI w.score 30 }
        else w
    | _, _ => w
  { w with endTime := w.startTime + opts.duration * 60 * 60 * 1000 }

/-- `goNowWindow.isGoNow = true`: the JS code mutates the found window object
in place; structurally, the window at the found position gets its flag set. -/
def markGoNow (w : Window) : Window := { w with isGoNow := true }

/-- Set `isGoNow` on the first element satisfying `p`, provided it also
satisfies `q` (the JS code first `find`s by `p`, then marks the found object
only if `q` holds of it). -/
def markFound (p q : Window → Bool) : List Window → List Window
  | [] => []
  | w :: ws =>
      if p w then (if q w then markGoNow w :: ws else w :: ws)
      else w :: markFound p q ws

/-- Comparator of `daytimeWindows.sort((a, b) => b.score - a.score)`; daytime
windows always carry a numeric (non-`NaN`) score, so `getD` is irrelevant
there and only makes the relation total. -/
def scoreDesc (a b : Window) : Prop := b.score.getD 0 ≤ a.score.getD 0

instance : DecidableRel scoreDesc := fun a b =>
  inferInstanceAs (Decidable (b.score.getD 0 ≤ a.score.getD 0))

/-- Comparator of `nighttimeWindows.sort((a, b) => a.startTime - b.startTime)`. -/
def timeAsc (a b : Window) : Prop := a.startTime ≤ b.startTime

instance : DecidableRel timeAsc := fun a b =>
  inferInstanceAs (Decidable (a.startTime ≤ b.startTime))

/-- Predicate of the first go-now search: the window interval contains `now`. -/
def containsNow (now : ℚ) (w : Window) : Bool :=
  if w.startTime ≤ now ∧ now ≤ w.endTime then true else false

/-- Predicate of the fallback go-now search: starts within the next hour. -/
def startsSoon (now : ℚ) (w : Window) : Bool :=
  if now ≤ w.startTime ∧ w.startTime ≤ now + 60 * 60 * 1000 then true else false

/-- The `windows` array after the snapshot loop (lines 36–76): iterate the
first `min(count, length)` snapshots, skip the ones strictly before `now`,
and push the processed window for each of the rest. -/
def generatedWindows (now : ℚ) (conditions : List ConditionSnapshot)
    (options : WindowOptions) : List Window :=
  (conditions.take options.count).filterMap (fun snapshot =>
    if snapshot.timestamp < now then none
    else some (processSnapshot options snapshot))

/-- `daytimeWindows` after its in-place sort by descending score. -/
def daytimeWindows (now : ℚ) (conditions : List ConditionSnapshot)
    (options : WindowOptions) : List Window :=
  ((generatedWindows now conditions options).filter
    (fun w => jsGtI w.score 30)).insertionSort scoreDesc

/-- `nighttimeWindows` after its in-place sort by ascending start time. -/
def nighttimeWindows (now : ℚ) (conditions : List ConditionSnapshot)
    (options : WindowOptions) : List Window :=
  ((generatedWindows now conditions options).filter
    (fun w => jsLeI w.score 30)).insertionSort timeAsc

/-- The go-now post-pass (lines 91–112): mark the first daytime window whose
interval contains `now`; failing that, mark the first daytime window starting
within the next hour, provided its score is at least 60. -/
def goNowMarked (now : ℚ) (conditions : List ConditionSnapshot)
    (options : WindowOptions) : List Window :=
  match (daytimeWindows now conditions options).find? (containsNow now) with
  | some _ =>
      markFound (containsNow now) (fun _ => true) (daytimeWindows now conditions options)
  | none =>
      markFound (startsSoon now) (fun w => jsGeI w.score 60)
        (daytimeWindows now conditions options)

/-- `generateWindows` (the `beach` parameter of the source function is never
read and is omitted; `new Date()` is the explicit `now` argument; the
returned `Promise` of the `async` function is immediate).  The returned
array is `[...daytimeWindows, ...nighttimeWindows]` observed after the
go-now mutation of a daytime window object. -/
def generateWindows (now : ℚ) (conditions : List ConditionSnapshot)
    (options : WindowOptions) : List Window :=
  goNowMarked now conditions options ++ nighttimeWindows now conditions options

/-! ## General lemmas about the embedding -/

instance : IsTotal Window timeAsc := ⟨fun a b => le_total a.startTime b.startTime⟩

instance : IsTrans Window timeAsc := ⟨fun _ _ _ h1 h2 => le_trans h1 h2⟩

instance : IsTotal Window scoreDesc := ⟨fun a b => le_total (b.score.getD 0) (a.score.getD 0)⟩

instance : IsTrans Window scoreDesc := ⟨fun _ _ _ h1 h2 => le_trans h2 h1⟩

theorem markGoNow_score (w : Window) : (markGoNow w).score = w.score := rfl

theorem markGoNow_startTime (w : Window) : (markGoNow w).startTime = w.startTime := rfl

theorem markGoNow_conditions (w : Window) : (markGoNow w).conditions = w.conditions := rfl

theorem markGoNow_badges (w : Window) : (markGoNow w).badges = w.badges := rfl

/-- Every member of `markFound p q l` is a member of `l` or a marked member of `l`. -/
theorem mem_markFound {p q : Window → Bool} {l : List Window} :
    ∀ w ∈ markFound p q l, w ∈ l ∨ ∃ a ∈ l, w = markGoNow a := by
  induction l with
  | nil => intro w hw; simp [markFound] at hw
  | cons x xs ih =>
      intro w hw
      unfold markFound at hw
      by_cases hp : p x
      · rw [if_pos hp] at hw
        by_cases hq : q x
        · rw [if_pos hq] at hw
          rcases List.mem_cons.mp hw with h | h
          · exact Or.inr ⟨x, List.mem_cons_self x xs, h⟩
          · exact Or.inl (List.mem_cons_of_mem x h)
        · rw [if_neg hq] at hw
          exact Or.inl hw
      · rw [if_neg hp] at hw
        rcases List.mem_cons.mp hw with h | h
        · exact Or.inl (h ▸ List.mem_cons_self x xs)
        · rcases ih w h with h2 | ⟨a, ha, rfl⟩
          · exact Or.inl (List.mem_cons_of_mem x h2)
          · exact Or.inr ⟨a, List.mem_cons_of_mem x ha, rfl⟩

theorem markFound_length (p q : Window → Bool) (l : List Window) :
    (markFound p q l).length = l.length := by
  induction l with
  | nil => rfl
  | cons x xs ih =>
      unfold markFound
      by_cases hp : p x
      · rw [if_pos hp]
        by_cases hq : q x
        · rw [if_pos hq]; simp
        · rw [if_neg hq]
      · rw [if_neg hp]; simpa using ih

/-- `markFound` preserves pairwise relations that do not look at `isGoNow`. -/
theorem markFound_pairwise {r : Window → Window → Prop} {p q : Window → Bool}
    {l : List Window}
    (hmark : ∀ a b, r a b → r (markGoNow a) b)
    (hmark2 : ∀ a b, r a b → r a (markGoNow b)) :
    l.Pairwise r → (markFound p q l).Pairwise r := by
  induction l with
  | nil => intro _; simp [markFound]
  | cons x xs ih =>
      intro hl
      rcases List.pairwise_cons.mp hl with ⟨hx, hxs⟩
      unfold markFound
      by_cases hp : p x
      · rw [if_pos hp]
        by_cases hq : q x
        · rw [if_pos hq]
          exact List.pairwise_cons.mpr ⟨fun b hb => hmark x b (hx b hb), hxs⟩
        · rw [if_neg hq]
          exact List.pairwise_cons.mpr ⟨hx, hxs⟩
      · rw [if_neg hp]
        refine List.pairwise_cons.mpr ⟨?_, ih hxs⟩
        intro b hb
        rcases mem_markFound b hb with h | ⟨a, ha, rfl⟩
        · exact hx b h
        · exact hmark2 x a (hx a ha)

theorem countP_markFound_le_one {p q : Window → Bool} {l : List Window}
    (h : ∀ w ∈ l, w.isGoNow = false) :
    (markFound p q l).countP (fun w => w.isGoNow) ≤ 1 := by
  induction l with
  | nil => simp [markFound]
  | cons x xs ih =>
      have hx : x.isGoNow = false := h x (List.mem_cons_self x xs)
      have hxs : ∀ w ∈ xs, w.isGoNow = false := fun w hw => h w (List.mem_cons_of_mem x hw)
      have hcount : xs.countP (fun w => w.isGoNow) = 0 :=
        List.countP_eq_zero.mpr (by intro w hw; simp [hxs w hw])
      unfold markFound
      by_cases hp : p x
      · rw [if_pos hp]
        by_cases hq : q x
        · rw [if_pos hq]
          rw [List.countP_cons, hcount]
          simp [markGoNow]
        · rw [if_neg hq]
          rw [List.countP_cons, hcount]
          simp [hx]
      · rw [if_neg hp]
        rw [List.countP_cons]
        simp only [hx]
        simpa using ih hxs

theorem processSnapshot_conditions (opts : WindowOptions) (s : ConditionSnapshot) :
    (processSnapshot opts s).conditions = s := by
  unfold processSnapshot calculateBeachScore
  cases s.sunrise <;> cases s.sunset <;> simp <;> split_ifs <;> rfl

theorem processSnapshot_startTime (opts : WindowOptions) (s : ConditionSnapshot) :
    (processSnapshot opts s).startTime = s.timestamp := by
  unfold processSnapshot calculateBeachScore
  cases s.sunrise <;> cases s.sunset <;> simp <;> split_ifs <;> rfl

theorem processSnapshot_isGoNow (opts : WindowOptions) (s : ConditionSnapshot) :
    (processSnapshot opts s).isGoNow = false := by
  unfold processSnapshot calculateBeachScore
  cases s.sunrise <;> cases s.sunset <;> simp <;> split_ifs <;> rfl

/-- Nighttime suppression in the loop body: when sunrise and sunset are
present and the window starts at/after sunset or ends at/before sunrise, the
nighttime badge is appended and the score becomes `min(score, 30)`. -/
theorem processSnapshot_night (opts : WindowOptions) (s : ConditionSnapshot)
    (sr ss : ℚ) (hsr : s.sunrise = some sr) (hss : s.sunset = some ss)
    (hnight : ss ≤ s.timestamp ∨ s.timestamp + opts.duration * 60 * 60 * 1000 ≤ sr) :
    nighttimeBadge ∈ (processSnapshot opts s).badges ∧
    (processSnapshot opts s).score =
      jsMinI (calculateBeachScore s opts.preferences).window.score 30 := by
  unfold processSnapshot
  rw [hsr, hss]
  simp only
  rw [if_pos hnight]
  exact ⟨List.mem_append_right _ (List.mem_singleton.mpr rfl), rfl⟩

theorem mem_generatedWindows {now : ℚ} {snaps : List ConditionSnapshot}
    {opts : WindowOptions} {w : Window} (hw : w ∈ generatedWindows now snaps opts) :
    ∃ s ∈ snaps.take opts.count, w = processSnapshot opts s ∧ now ≤ s.timestamp := by
  rcases List.mem_filterMap.mp hw with ⟨s, hs, hfs⟩
  refine ⟨s, hs, ?_⟩
  by_cases hlt : s.timestamp < now
  · rw [if_pos hlt] at hfs; exact absurd hfs (by simp)
  · rw [if_neg hlt] at hfs
    exact ⟨(Option.some_injective _ hfs).symm, le_of_not_lt hlt⟩

theorem mem_daytimeWindows {now : ℚ} {snaps : List ConditionSnapshot}
    {opts : WindowOptions} {w : Window} (hw : w ∈ daytimeWindows now snaps opts) :
    w ∈ generatedWindows now snaps opts ∧ jsGtI w.score 30 = true := by
  have h := (List.mem_insertionSort scoreDesc).mp hw
  exact ⟨(List.mem_filter.mp h).1, (List.mem_filter.mp h).2⟩

theorem mem_nighttimeWindows {now : ℚ} {snaps : List ConditionSnapshot}
    {opts : WindowOptions} {w : Window} (hw : w ∈ nighttimeWindows now snaps opts) :
    w ∈ generatedWindows now snaps opts ∧ jsLeI w.score 30 = true := by
  have h := (List.mem_insertionSort timeAsc).mp hw
  exact ⟨(List.mem_filter.mp h).1, (List.mem_filter.mp h).2⟩

theorem mem_goNowMarked {now : ℚ} {snaps : List ConditionSnapshot}
    {opts : WindowOptions} {w : Window} (hw : w ∈ goNowMarked now snaps opts) :
    w ∈ daytimeWindows now snaps opts ∨
      ∃ a ∈ daytimeWindows now snaps opts, w = markGoNow a := by
  unfold goNowMarked at hw
  rcases hfind : (daytimeWindows now snaps opts).find? (containsNow now) with _ | v <;>
    rw [hfind] at hw
  · exact mem_markFound w hw
  · exact mem_markFound w hw

/-- Every window returned by `generateWindows` is the processed form of one
of the first `count` snapshots, possibly with the go-now flag set. -/
theorem mem_generateWindows {now : ℚ} {snaps : List ConditionSnapshot}
    {opts : WindowOptions} {w : Window} (hw : w ∈ generateWindows now snaps opts) :
    ∃ s ∈ snaps.take opts.count,
      w = processSnapshot opts s ∨ w = markGoNow (processSnapshot opts s) := by
  rcases List.mem_append.mp hw with h | h
  · rcases mem_goNowMarked h with h2 | ⟨a, ha, rfl⟩
    · rcases mem_generatedWindows (mem_daytimeWindows h2).1 with ⟨s, hs, rfl, _⟩
      exact ⟨s, hs, Or.inl rfl⟩
    · rcases mem_generatedWindows (mem_daytimeWindows ha).1 with ⟨s, hs, rfl, _⟩
      exact ⟨s, hs, Or.inr rfl⟩
  · rcases mem_generatedWindows (mem_nighttimeWindows h).1 with ⟨s, hs, rfl, _⟩
    exact ⟨s, hs, Or.inl rfl⟩

/-! ## Sub-score bounds and weight lemmas -/

theorem breakdown_tempScore (c : ConditionSnapshot) (prefs : Option UserPreferences) :
    (calculateBeachScore c prefs).scoreBreakdown.tempScore =
      calculateTempScore c.temp c.feelsLike prefs := rfl

theorem breakdown_uvScore (c : ConditionSnapshot) (prefs : Option UserPreferences) :
    (calculateBeachScore c prefs).scoreBreakdown.uvScore = calculateUVScore c.uvIndex := rfl

theorem breakdown_windScore (c : ConditionSnapshot) (prefs : Option UserPreferences) :
    (calculateBeachScore c prefs).scoreBreakdown.windScore =
      calculateWindScore c.windSpeed c.windGust none := rfl

theorem breakdown_tideScore (c : ConditionSnapshot) (prefs : Option UserPreferences) :
    (calculateBeachScore c prefs).scoreBreakdown.tideScore =
      calculateTideScore c.tideType := rfl

theorem breakdown_weatherScore (c : ConditionSnapshot) (prefs : Option UserPreferences) :
    (calculateBeachScore c prefs).scoreBreakdown.weatherScore =
      calculateWeatherScore c.weatherCode c.cloudCover := rfl

theorem customizeWeights_sum (p : UserPreferences) :
    (customizeWeights p).temp + (customizeWeights p).uv + (customizeWeights p).wind +
      (customizeWeights p).tide + (customizeWeights p).weather = 1 := by
  unfold customizeWeights
  cases h1 : p.activityGoals.contains ActivityGoal.photography <;>
    cases h2 : p.activityGoals.contains ActivityGoal.swim <;>
      simp [h1, h2, DEFAULT_WEIGHTS] <;> norm_num

theorem customizeWeights_nonneg (p : UserPreferences) :
    0 ≤ (customizeWeights p).temp ∧ 0 ≤ (customizeWeights p).uv ∧
      0 ≤ (customizeWeights p).wind ∧ 0 ≤ (customizeWeights p).tide ∧
      0 ≤ (customizeWeights p).weather := by
  unfold customizeWeights
  cases h1 : p.activityGoals.contains ActivityGoal.photography <;>
    cases h2 : p.activityGoals.contains ActivityGoal.swim <;>
      simp [h1, h2, DEFAULT_WEIGHTS] <;> norm_num

theorem calculateUVScore_bounds (u : ℚ) :
    0 ≤ calculateUVScore u ∧ calculateUVScore u ≤ 100 := by
  unfold calculateUVScore
  split_ifs <;> norm_num

theorem calculateWindScore_bounds (s : ℚ) (g : Option ℚ) (p : Option UserPreferences) :
    0 ≤ calculateWindScore s g p ∧ calculateWindScore s g p ≤ 100 := by
  unfold calculateWindScore
  dsimp only
  split_ifs <;> norm_num

theorem calculateTideScore_bounds (t : String) :
    0 ≤ calculateTideScore t ∧ calculateTideScore t ≤ 100 := by
  unfold calculateTideScore
  split_ifs <;> norm_num

theorem WEATHER_SCORES_getD_bounds (c : String) :
    10 ≤ (WEATHER_SCORES c).getD 50 ∧ (WEATHER_SCORES c).getD 50 ≤ 100 := by
  rcases hfind : WEATHER_SCORES_ENTRIES.find?
      (fun kv => if kv.1 = c then true else false) with _ | kv
  · unfold WEATHER_SCORES
    rw [hfind]
    norm_num
  · have hmem := List.mem_of_find?_eq_some hfind
    have : 10 ≤ kv.2 ∧ kv.2 ≤ 100 := by
      simp only [WEATHER_SCORES_ENTRIES, List.mem_cons, List.not_mem_nil, or_false] at hmem
      rcases hmem with h | h | h | h | h | h | h | h | h | h | h | h | h | h | h | h | h | h
        <;> subst h <;> norm_num
    unfold WEATHER_SCORES
    rw [hfind]
    exact this

theorem calculateWeatherScore_bounds (c : String) (cc : ℚ) :
    0 ≤ calculateWeatherScore c cc ∧ calculateWeatherScore c cc ≤ 100 := by
  rcases WEATHER_SCORES_getD_bounds c with ⟨hlo, hhi⟩
  simp only [calculateWeatherScore]
  split_ifs <;> constructor <;> linarith

/-- The preference combinations under which the user-range temperature curve
avoids the JS `0 / 0` (`NaN`): any supplied `tempRange` is nondegenerate. -/
def nondegenerateTempRange : Option UserPreferences → Prop
  | none => True
  | some p => ∀ r, p.tempRange = some r → r.min ≠ r.max

theorem calculateTempScore_bounds (temp feelsLike : ℚ) (prefs : Option UserPreferences)
    (h : nondegenerateTempRange prefs) :
    ∃ t, calculateTempScore temp feelsLike prefs = some t ∧ 0 ≤ t ∧ t ≤ 100 := by
  unfold calculateTempScore
  rcases hpr : prefs.bind (fun p => p.tempRange) with _ | r
  · simp only [TEMP_THRESHOLDS]
    refine ⟨_, rfl, ?_⟩
    by_cases hopt : 80 ≤ feelsLike ∧ feelsLike ≤ 90
    · rw [if_pos hopt]; norm_num
    · rw [if_neg hopt]
      by_cases hgood : 75 ≤ feelsLike ∧ feelsLike ≤ 95
      · rw [if_pos hgood]
        by_cases hlow : feelsLike < 80
        · rw [if_pos hlow]
          constructor <;> linarith [hgood.1]
        · rw [if_neg hlow]
          have h90 : 90 < feelsLike :=
            lt_of_not_le fun hle => hopt ⟨le_of_not_lt hlow, hle⟩
          constructor <;> linarith
      · rw [if_neg hgood]
        split_ifs <;> norm_num
  · have hne : r.min ≠ r.max := by
      rcases prefs with _ | p
      · simp at hpr
      · exact h r (by simpa using hpr)
    simp only
    by_cases hin : r.min ≤ feelsLike ∧ feelsLike ≤ r.max
    · rw [if_pos hin]
      have hlt : r.min < r.max := lt_of_le_of_ne (le_trans hin.1 hin.2) hne
      have hhalf : (0:ℚ) < (r.max - r.min) / 2 := by linarith
      unfold jsDiv
      rw [if_neg (ne_of_gt hhalf)]
      refine ⟨_, rfl, ?_, ?_⟩
      · have hu1 : |feelsLike - (r.min + r.max) / 2| / ((r.max - r.min) / 2) ≤ 1 := by
          rw [div_le_one hhalf]
          exact abs_le.mpr ⟨by linarith [hin.1], by linarith [hin.2]⟩
        simp only [Option.map_some]
        linarith
      · have hu0 : 0 ≤ |feelsLike - (r.min + r.max) / 2| / ((r.max - r.min) / 2) :=
          div_nonneg (abs_nonneg _) (le_of_lt hhalf)
        simp only [Option.map_some]
        linarith
    · rw [if_neg hin]
      by_cases hbelow : feelsLike < r.min
      · rw [if_pos hbelow]
        refine ⟨_, rfl, le_max_left _ _, ?_⟩
        exact max_le (by norm_num) (by linarith)
      · rw [if_neg hbelow]
        push_neg at hin hbelow
        have habove : r.max < feelsLike := hin hbelow
        refine ⟨_, rfl, le_max_left _ _, ?_⟩
        exact max_le (by norm_num) (by linarith)

theorem jsRound_bounds {q : ℚ} (h0 : 0 ≤ q) (h1 : q ≤ 100) :
    0 ≤ jsRound q ∧ jsRound q ≤ 100 := by
  unfold jsRound
  constructor
  · exact Int.le_floor.mpr (by push_cast; linarith)
  · have hle : (⌊q + 1/2⌋ : ℤ) ≤ ⌊(100:ℚ) + 1/2⌋ := Int.floor_le_floor (by linarith)
    have : (⌊(100:ℚ) + 1/2⌋ : ℤ) = 100 := by norm_num
    omega

theorem weighted_total_bounds {t u w ti we : ℚ} {W : ScoreWeights}
    (ht : 0 ≤ t ∧ t ≤ 100) (hu : 0 ≤ u ∧ u ≤ 100) (hw : 0 ≤ w ∧ w ≤ 100)
    (hti : 0 ≤ ti ∧ ti ≤ 100) (hwe : 0 ≤ we ∧ we ≤ 100)
    (Wnn : 0 ≤ W.temp ∧ 0 ≤ W.uv ∧ 0 ≤ W.wind ∧ 0 ≤ W.tide ∧ 0 ≤ W.weather)
    (Wsum : W.temp + W.uv + W.wind + W.tide + W.weather = 1) :
    0 ≤ t * W.temp + u * W.uv + w * W.wind + ti * W.tide + we * W.weather ∧
      t * W.temp + u * W.uv + w * W.wind + ti * W.tide + we * W.weather ≤ 100 := by
  obtain ⟨w1, w2, w3, w4, w5⟩ := Wnn
  constructor
  · have := mul_nonneg ht.1 w1
    have := mul_nonneg hu.1 w2
    have := mul_nonneg hw.1 w3
    have := mul_nonneg hti.1 w4
    have := mul_nonneg hwe.1 w5
    linarith
  · have := mul_le_mul_of_nonneg_right ht.2 w1
    have := mul_le_mul_of_nonneg_right hu.2 w2
    have := mul_le_mul_of_nonneg_right hw.2 w3
    have := mul_le_mul_of_nonneg_right hti.2 w4
    have := mul_le_mul_of_nonneg_right hwe.2 w5
    nlinarith [Wsum]

theorem breakdown_weights (c : ConditionSnapshot) (prefs : Option UserPreferences) :
    (calculateBeachScore c prefs).scoreBreakdown.weights = resolveWeights prefs := rfl

theorem breakdown_totalScore (c : ConditionSnapshot) (prefs : Option UserPreferences) :
    (calculateBeachScore c prefs).scoreBreakdown.totalScore =
      (calculateTempScore c.temp c.feelsLike prefs).map (fun t =>
        jsRound (t * (resolveWeights prefs).temp +
          calculateUVScore c.uvIndex * (resolveWeights prefs).uv +
          calculateWindScore c.windSpeed c.windGust none * (resolveWeights prefs).wind +
          calculateTideScore c.tideType * (resolveWeights prefs).tide +
          calculateWeatherScore c.weatherCode c.cloudCover * (resolveWeights prefs).weather)) :=
  rfl

theorem window_score_eq_totalScore (c : ConditionSnapshot) (prefs : Option UserPreferences) :
    (calculateBeachScore c prefs).window.score =
      (calculateBeachScore c prefs).scoreBreakdown.totalScore := rfl

theorem resolveWeights_nonneg (prefs : Option UserPreferences) :
    0 ≤ (resolveWeights prefs).temp ∧ 0 ≤ (resolveWeights prefs).uv ∧
      0 ≤ (resolveWeights prefs).wind ∧ 0 ≤ (resolveWeights prefs).tide ∧
      0 ≤ (resolveWeights prefs).weather := by
  rcases prefs with _ | p
  · unfold resolveWeights DEFAULT_WEIGHTS
    norm_num
  · exact customizeWeights_nonneg p

theorem resolveWeights_sum (prefs : Option UserPreferences) :
    (resolveWeights prefs).temp + (resolveWeights prefs).uv + (resolveWeights prefs).wind +
      (resolveWeights prefs).tide + (resolveWeights prefs).weather = 1 := by
  rcases prefs with _ | p
  · unfold resolveWeights DEFAULT_WEIGHTS
    norm_num
  · exact customizeWeights_sum p

/-! ## Concrete inputs used by the claims -/

/-- The §8 scenario snapshot: temp 85, feelsLike 85, humidity 60, cloud 10,
uv 4, wind 7 (no gust), slack tide, clear sky. -/
def c4snap : ConditionSnapshot :=
  { timestamp := 0, temp := 85, feelsLike := 85, humidity := 60, cloudCover := 10,
    weatherCode := "01d", windSpeed := 7, windGust := none, uvIndex := 4,
    tideType := "slack", sunrise := none, sunset := none }

/-- Preferences with a wind tolerance of 10 mph. -/
def c3prefs : UserPreferences :=
  { tempRange := none, windTolerance := some 10, activityGoals := [] }

/-- Snapshot with sustained wind 12 mph and no gust. -/
def c3snap : ConditionSnapshot :=
  { timestamp := 0, temp := 85, feelsLike := 85, humidity := 60, cloudCover := 10,
    weatherCode := "01d", windSpeed := 12, windGust := none, uvIndex := 4,
    tideType := "slack", sunrise := none, sunset := none }

/-- Preferences with a degenerate temperature range (min = max = 80). -/
def c6prefs : UserPreferences :=
  { tempRange := some ⟨80, 80⟩, windTolerance := none, activityGoals := [] }

/-- Snapshot whose feels-like temperature sits exactly on the degenerate range. -/
def c6snap : ConditionSnapshot :=
  { timestamp := 0, temp := 80, feelsLike := 80, humidity := 60, cloudCover := 10,
    weatherCode := "01d", windSpeed := 7, windGust := none, uvIndex := 4,
    tideType := "slack", sunrise := none, sunset := none }

/-! ## C4 -/

theorem c4_weather_lookup : WEATHER_SCORES "01d" = some 100 := by
  simp [WEATHER_SCORES, WEATHER_SCORES_ENTRIES, List.find?]

/-- C4 (counterexample): at the §8 scenario input (uvIndex = 4) the engine
returns uvScore = 80 (the `≤ 5` step of the UV table), not the claimed 100,
and totalScore = 93, not the claimed 98. -/
theorem C4_counterexample :
    (calculateBeachScore c4snap none).scoreBreakdown.uvScore ≠ 100 ∧
    (calculateBeachScore c4snap none).scoreBreakdown.totalScore ≠ some 98 := by
  constructor
  · rw [breakdown_uvScore]
    norm_num [calculateUVScore, UV_THRESHOLDS, c4snap]
  · rw [breakdown_totalScore]
    norm_num [calculateTempScore, calculateUVScore, calculateWindScore, calculateTideScore,
      calculateWeatherScore, c4_weather_lookup, c4snap, TEMP_THRESHOLDS, UV_THRESHOLDS,
      WIND_THRESHOLDS, resolveWeights, DEFAULT_WEIGHTS, jsRound]

/-- C4 (amended): the §8 scenario yields tempScore 100, uvScore 80 (uvIndex 4
falls in the `≤ 5` step), windScore 90, tideScore 100, weatherScore 100, and
totalScore round(100·0.30 + 80·0.25 + 90·0.25 + 100·0.10 + 100·0.10) =
round(92.5) = 93. -/
theorem C4_scenario_breakdown :
    (calculateBeachScore c4snap none).scoreBreakdown.tempScore = some 100 ∧
    (calculateBeachScore c4snap none).scoreBreakdown.uvScore = 80 ∧
    (calculateBeachScore c4snap none).scoreBreakdown.windScore = 90 ∧
    (calculateBeachScore c4snap none).scoreBreakdown.tideScore = 100 ∧
    (calculateBeachScore c4snap none).scoreBreakdown.weatherScore = 100 ∧
    (calculateBeachScore c4snap none).scoreBreakdown.totalScore = some 93 := by
  refine ⟨?_, ?_, ?_, ?_, ?_, ?_⟩
  · rw [breakdown_tempScore]
    norm_num [calculateTempScore, TEMP_THRESHOLDS, c4snap]
  · rw [breakdown_uvScore]
    norm_num [calculateUVScore, UV_THRESHOLDS, c4snap]
  · rw [breakdown_windScore]
    norm_num [calculateWindScore, WIND_THRESHOLDS, c4snap]
  · rw [breakdown_tideScore]
    simp [calculateTideScore, c4snap]
  · rw [breakdown_weatherScore]
    norm_num [calculateWeatherScore, c4_weather_lookup, c4snap]
  · rw [breakdown_totalScore]
    norm_num [calculateTempScore, calculateUVScore, calculateWindScore, calculateTideScore,
      calculateWeatherScore, c4_weather_lookup, c4snap, TEMP_THRESHOLDS, UV_THRESHOLDS,
      WIND_THRESHOLDS, resolveWeights, DEFAULT_WEIGHTS, jsRound]

/-! ## C3 -/

/-- C3 (code bug): with a user wind tolerance of 10 mph and effective wind 12
mph (> 10), the engine's wind sub-score is 70 — the raw step table — because
`calculateBeachScore` never forwards `preferences` to `calculateWindScore`
(line 29).  `calculateWindScore` itself, when handed the same preferences,
returns the claimed clamped 20, showing the dropped argument is the slip. -/
theorem C3_tolerance_dropped :
    (calculateBeachScore c3snap (some c3prefs)).scoreBreakdown.windScore = 70 ∧
    calculateWindScore c3snap.windSpeed c3snap.windGust (some c3prefs) = 20 ∧
    (70 : ℚ) ≠ 20 := by
  refine ⟨?_, ?_, by norm_num⟩
  · rw [breakdown_windScore]
    norm_num [calculateWindScore, WIND_THRESHOLDS, c3snap]
  · norm_num [calculateWindScore, WIND_THRESHOLDS, c3snap, c3prefs]

/-! ## C5 -/

/-- C5: for every UserPreferences value (any combination of activity goals),
the five weights resolved by `customizeWeights` sum to exactly 1 after
renormalization. -/
theorem C5_weights_sum_one (p : UserPreferences) :
    (customizeWeights p).temp + (customizeWeights p).uv + (customizeWeights p).wind +
      (customizeWeights p).tide + (customizeWeights p).weather = 1 :=
  customizeWeights_sum p

/-! ## C6 -/

/-- C6 (counterexample): a degenerate tempRange (min = max = 80) with
feelsLike = 80 makes the engine compute JS `0 / 0 = NaN` for the temperature
sub-score, so the temperature sub-score and the total score are `NaN`
(modelled `none`) — not numbers in [0, 100]. -/
theorem C6_counterexample :
    (calculateBeachScore c6snap (some c6prefs)).scoreBreakdown.tempScore = none ∧
    (calculateBeachScore c6snap (some c6prefs)).scoreBreakdown.totalScore = none ∧
    ¬ ∃ t : ℚ, (calculateBeachScore c6snap (some c6prefs)).scoreBreakdown.tempScore = some t ∧
      0 ≤ t ∧ t ≤ 100 := by
  have h1 : (calculateBeachScore c6snap (some c6prefs)).scoreBreakdown.tempScore = none := by
    rw [breakdown_tempScore]
    norm_num [calculateTempScore, jsDiv, c6snap, c6prefs]
  refine ⟨h1, ?_, ?_⟩
  · rw [breakdown_totalScore]
    have : calculateTempScore c6snap.temp c6snap.feelsLike (some c6prefs) = none := h1
    rw [this]
    rfl
  · rintro ⟨t, ht, -⟩
    rw [h1] at ht
    cases ht

/-- C6 (amended): for every snapshot and preferences whose tempRange (when
supplied) is nondegenerate, every sub-score is a number in [0, 100] and the
rounded total score is a number in [0, 100].  (The degenerate range is the
single NaN escape shown by the counterexample.) -/
theorem C6_scores_bounded (c : ConditionSnapshot) (prefs : Option UserPreferences)
    (h : nondegenerateTempRange prefs) :
    (∃ t, (calculateBeachScore c prefs).scoreBreakdown.tempScore = some t ∧
      0 ≤ t ∧ t ≤ 100) ∧
    (0 ≤ (calculateBeachScore c prefs).scoreBreakdown.uvScore ∧
      (calculateBeachScore c prefs).scoreBreakdown.uvScore ≤ 100) ∧
    (0 ≤ (calculateBeachScore c prefs).scoreBreakdown.windScore ∧
      (calculateBeachScore c prefs).scoreBreakdown.windScore ≤ 100) ∧
    (0 ≤ (calculateBeachScore c prefs).scoreBreakdown.tideScore ∧
      (calculateBeachScore c prefs).scoreBreakdown.tideScore ≤ 100) ∧
    (0 ≤ (calculateBeachScore c prefs).scoreBreakdown.weatherScore ∧
      (calculateBeachScore c prefs).scoreBreakdown.weatherScore ≤ 100) ∧
    (∃ n, (calculateBeachScore c prefs).scoreBreakdown.totalScore = some n ∧
      0 ≤ n ∧ n ≤ 100) := by
  obtain ⟨t, ht, ht0, ht1⟩ := calculateTempScore_bounds c.temp c.feelsLike prefs h
  refine ⟨⟨t, by rw [breakdown_tempScore]; exact ht, ht0, ht1⟩,
    by rw [breakdown_uvScore]; exact calculateUVScore_bounds _,
    by rw [breakdown_windScore]; exact calculateWindScore_bounds _ _ _,
    by rw [breakdown_tideScore]; exact calculateTideScore_bounds _,
    by rw [breakdown_weatherScore]; exact calculateWeatherScore_bounds _ _, ?_⟩
  rw [breakdown_totalScore, ht]
  obtain ⟨w1, w2, w3, w4, w5⟩ := resolveWeights_nonneg prefs
  have hsum :=
    weighted_total_bounds ⟨ht0, ht1⟩ (calculateUVScore_bounds c.uvIndex)
      (calculateWindScore_bounds c.windSpeed c.windGust none)
      (calculateTideScore_bounds c.tideType)
      (calculateWeatherScore_bounds c.weatherCode c.cloudCover)
      ⟨w1, w2, w3, w4, w5⟩ (resolveWeights_sum prefs)
  obtain ⟨hr0, hr1⟩ := jsRound_bounds hsum.1 hsum.2
  exact ⟨_, rfl, hr0, hr1⟩

/-- C6 witness: the amended bound at the §8 scenario input with no
preferences (the nondegeneracy hypothesis is trivial there). -/
theorem C6_scores_bounded_witness :
    (∃ t, (calculateBeachScore c4snap none).scoreBreakdown.tempScore = some t ∧
      0 ≤ t ∧ t ≤ 100) ∧
    (0 ≤ (calculateBeachScore c4snap none).scoreBreakdown.uvScore ∧
      (calculateBeachScore c4snap none).scoreBreakdown.uvScore ≤ 100) ∧
    (0 ≤ (calculateBeachScore c4snap none).scoreBreakdown.windScore ∧
      (calculateBeachScore c4snap none).scoreBreakdown.windScore ≤ 100) ∧
    (0 ≤ (calculateBeachScore c4snap none).scoreBreakdown.tideScore ∧
      (calculateBeachScore c4snap none).scoreBreakdown.tideScore ≤ 100) ∧
    (0 ≤ (calculateBeachScore c4snap none).scoreBreakdown.weatherScore ∧
      (calculateBeachScore c4snap none).scoreBreakdown.weatherScore ≤ 100) ∧
    (∃ n, (calculateBeachScore c4snap none).scoreBreakdown.totalScore = some n ∧
      0 ≤ n ∧ n ≤ 100) :=
  C6_scores_bounded c4snap none trivial

/-! ## C8 -/

/-- C8: holding all else fixed, the UV sub-score is non-increasing in
`uvIndex`, and the wind sub-score is non-increasing in the effective wind
speed (sustained speed with no gust), for any preferences — including across
the tolerance-clamp boundary. -/
theorem C8_monotonicity :
    (∀ u v : ℚ, u ≤ v → calculateUVScore v ≤ calculateUVScore u) ∧
    (∀ (prefs : Option UserPreferences) (s1 s2 : ℚ), s1 ≤ s2 →
      calculateWindScore s2 none prefs ≤ calculateWindScore s1 none prefs) := by
  constructor
  · intro u v huv
    unfold calculateUVScore
    simp only [UV_THRESHOLDS]
    split_ifs <;> linarith
  · intro prefs s1 s2 hs
    unfold calculateWindScore
    dsimp only
    simp only [WIND_THRESHOLDS]
    split_ifs <;> linarith

/-- C8 witness: the monotonicity applied at uvIndex 2 ≤ 5 and effective winds
7 ≤ 12 with no preferences. -/
theorem C8_monotonicity_witness :
    calculateUVScore 5 ≤ calculateUVScore 2 ∧
    calculateWindScore 12 none none ≤ calculateWindScore 7 none none :=
  ⟨C8_monotonicity.1 2 5 (by norm_num), C8_monotonicity.2 none 7 12 (by norm_num)⟩

/-! ## Windowing claims: general theorems -/

theorem length_filter_day_night (l : List Window) :
    (l.filter (fun w => jsGtI w.score 30)).length +
      (l.filter (fun w => jsLeI w.score 30)).length ≤ l.length := by
  induction l with
  | nil => simp
  | cons x xs ih =>
      rcases hx : x.score with _ | v
      · have h1 : jsGtI x.score 30 = false := by simp [jsGtI, hx]
        have h2 : jsLeI x.score 30 = false := by simp [jsLeI, hx]
        simp [List.filter_cons, h1, h2]
        omega
      · by_cases h30 : (30:ℤ) < v
        · have h1 : jsGtI x.score 30 = true := by simp [jsGtI, hx, h30]
          have h2 : jsLeI x.score 30 = false := by simp [jsLeI, hx]; omega
          simp [List.filter_cons, h1, h2]
          omega
        · have h1 : jsGtI x.score 30 = false := by simp [jsGtI, hx]; omega
          have h2 : jsLeI x.score 30 = true := by simp [jsLeI, hx]; omega
          simp [List.filter_cons, h1, h2]
          omega

theorem goNowMarked_length (now : ℚ) (snaps : List ConditionSnapshot)
    (opts : WindowOptions) :
    (goNowMarked now snaps opts).length = (daytimeWindows now snaps opts).length := by
  unfold goNowMarked
  rcases hfind : (daytimeWindows now snaps opts).find? (containsNow now) with _ | v
  · exact markFound_length _ _ _
  · exact markFound_length _ _ _

/-- C10: the number of returned windows never exceeds `min(count, length)`,
and every returned window's conditions come from one of the first `count`
snapshots. -/
theorem C10_window_count (now : ℚ) (snaps : List ConditionSnapshot)
    (opts : WindowOptions) :
    (generateWindows now snaps opts).length ≤ min opts.count snaps.length ∧
    ∀ w ∈ generateWindows now snaps opts,
      ∃ s ∈ snaps.take opts.count, w.conditions = s := by
  constructor
  · have h1 : (generateWindows now snaps opts).length =
        (goNowMarked now snaps opts).length + (nighttimeWindows now snaps opts).length :=
      List.length_append _ _
    have h2 := goNowMarked_length now snaps opts
    have h3 : (daytimeWindows now snaps opts).length =
        ((generatedWindows now snaps opts).filter (fun w => jsGtI w.score 30)).length :=
      (List.perm_insertionSort scoreDesc _).length_eq
    have h4 : (nighttimeWindows now snaps opts).length =
        ((generatedWindows now snaps opts).filter (fun w => jsLeI w.score 30)).length :=
      (List.perm_insertionSort timeAsc _).length_eq
    have h5 := length_filter_day_night (generatedWindows now snaps opts)
    have h6 : (generatedWindows now snaps opts).length ≤ (snaps.take opts.count).length :=
      List.length_filterMap_le _ _
    have h7 : (snaps.take opts.count).length = min opts.count snaps.length :=
      List.length_take _ _
    omega
  · intro w hw
    rcases mem_generateWindows hw with ⟨s, hs, hcase⟩
    refine ⟨s, hs, ?_⟩
    rcases hcase with rfl | rfl
    · exact processSnapshot_conditions opts s
    · exact processSnapshot_conditions opts s

/-- C7: at most one window in the returned list carries `isGoNow = true`. -/
theorem C7_goNow_unique (now : ℚ) (snaps : List ConditionSnapshot)
    (opts : WindowOptions) :
    (generateWindows now snaps opts).countP (fun w => w.isGoNow) ≤ 1 := by
  have hgen : ∀ w ∈ generatedWindows now snaps opts, w.isGoNow = false := by
    intro w hw
    rcases mem_generatedWindows hw with ⟨s, _, rfl, _⟩
    exact processSnapshot_isGoNow opts s
  have hday : ∀ w ∈ daytimeWindows now snaps opts, w.isGoNow = false :=
    fun w hw => hgen w (mem_daytimeWindows hw).1
  have hnight : ∀ w ∈ nighttimeWindows now snaps opts, w.isGoNow = false :=
    fun w hw => hgen w (mem_nighttimeWindows hw).1
  have h1 : (goNowMarked now snaps opts).countP (fun w => w.isGoNow) ≤ 1 := by
    unfold goNowMarked
    rcases hfind : (daytimeWindows now snaps opts).find? (containsNow now) with _ | v
    · exact countP_markFound_le_one hday
    · exact countP_markFound_le_one hday
  have h2 : (nighttimeWindows now snaps opts).countP (fun w => w.isGoNow) = 0 :=
    List.countP_eq_zero.mpr (fun w hw => by simp [hnight w hw])
  have h3 : (generateWindows now snaps opts).countP (fun w => w.isGoNow) =
      (goNowMarked now snaps opts).countP (fun w => w.isGoNow) +
        (nighttimeWindows now snaps opts).countP (fun w => w.isGoNow) :=
    List.countP_append _ _ _
  omega

/-- C9: an empty snapshot sequence yields an empty window list, and so does a
sequence in which every timestamp is strictly before `now`; in either case no
window exists, hence none is marked go-now. -/
theorem C9_empty_and_past (now : ℚ) (opts : WindowOptions) :
    generateWindows now [] opts = [] ∧
    ∀ snaps : List ConditionSnapshot, (∀ s ∈ snaps, s.timestamp < now) →
      generateWindows now snaps opts = [] := by
  have key : ∀ snaps : List ConditionSnapshot,
      generatedWindows now snaps opts = [] → generateWindows now snaps opts = [] := by
    intro snaps hgen
    unfold generateWindows goNowMarked daytimeWindows nighttimeWindows
    rw [hgen]
    rfl
  constructor
  · refine key [] ?_
    unfold generatedWindows
    simp
  · intro snaps h
    refine key snaps ?_
    unfold generatedWindows
    rw [List.filterMap_eq_nil_iff]
    intro s hs
    rw [if_pos (h s (List.take_subset _ _ hs))]

/-- C9 witness: a single snapshot strictly in the past yields the empty list. -/
theorem C9_empty_and_past_witness :
    generateWindows 1 [c4snap] DEFAULT_OPTIONS = [] :=
  (C9_empty_and_past 1 DEFAULT_OPTIONS).2 [c4snap]
    (fun s hs => by
      rw [List.mem_singleton.mp hs]
      norm_num [c4snap])

/-- C2 (amended): the returned sequence is the daytime windows (score > 30)
in non-increasing score order followed by the nighttime windows (score ≤ 30)
in non-decreasing start-time order — not one globally chronological list. -/
theorem C2_order_structure (now : ℚ) (snaps : List ConditionSnapshot)
    (opts : WindowOptions) :
    ∃ d n, generateWindows now snaps opts = d ++ n ∧
      (∀ w ∈ d, jsGtI w.score 30 = true) ∧
      (∀ w ∈ n, jsLeI w.score 30 = true) ∧
      List.Sorted scoreDesc d ∧ List.Sorted timeAsc n := by
  refine ⟨goNowMarked now snaps opts, nighttimeWindows now snaps opts, rfl, ?_, ?_, ?_, ?_⟩
  · intro w hw
    rcases mem_goNowMarked hw with h | ⟨a, ha, rfl⟩
    · exact (mem_daytimeWindows h).2
    · exact (mem_daytimeWindows ha).2
  · intro w hw
    exact (mem_nighttimeWindows hw).2
  · have hsorted : List.Sorted scoreDesc (daytimeWindows now snaps opts) :=
      List.sorted_insertionSort scoreDesc _
    unfold goNowMarked
    rcases hfind : (daytimeWindows now snaps opts).find? (containsNow now) with _ | v
    · exact markFound_pairwise (fun a b h => h) (fun a b h => h) hsorted
    · exact markFound_pairwise (fun a b h => h) (fun a b h => h) hsorted
  · exact List.sorted_insertionSort timeAsc _

/-- C1 (amended): every returned window whose snapshot carries sunrise and
sunset and is nighttime by the code's test — window start at/after sunset, or
window end at/before sunrise — carries the nighttime badge, and its score is
`min(raw score, 30)` (a cap, not a flat 30). -/
theorem C1_nighttime_cap (now : ℚ) (opts : WindowOptions)
    (snaps : List ConditionSnapshot) (w : Window)
    (hw : w ∈ generateWindows now snaps opts) (sr ss : ℚ)
    (hsr : w.conditions.sunrise = some sr) (hss : w.conditions.sunset = some ss)
    (hnight : ss ≤ w.conditions.timestamp ∨
      w.conditions.timestamp + opts.duration * 60 * 60 * 1000 ≤ sr) :
    nighttimeBadge ∈ w.badges ∧
    w.score = jsMinI (calculateBeachScore w.conditions opts.preferences).window.score 30 := by
  rcases mem_generateWindows hw with ⟨s, hs, hcase⟩
  have hcond : w.conditions = s := by
    rcases hcase with rfl | rfl
    · exact processSnapshot_conditions opts s
    · exact processSnapshot_conditions opts s
  rw [hcond] at hsr hss hnight
  have hn := processSnapshot_night opts s sr ss hsr hss hnight
  rw [hcond]
  rcases hcase with rfl | rfl
  · exact hn
  · exact hn

/-! ## Concrete windowing runs -/

theorem dOPT_count : DEFAULT_OPTIONS.count = 16 := rfl

theorem dOPT_duration : DEFAULT_OPTIONS.duration = 3 := rfl

theorem dOPT_prefs : DEFAULT_OPTIONS.preferences = none := rfl

/-- Ideal conditions whose 3-hour window (start 0, end 10 800 000) has its
midpoint (5 400 000) before sunrise (7 200 000), yet ends after sunrise, so
the code's start/end nighttime test does not fire. -/
def c1brightSnap : ConditionSnapshot :=
  { timestamp := 0, temp := 85, feelsLike := 85, humidity := 60, cloudCover := 10,
    weatherCode := "01d", windSpeed := 3, windGust := none, uvIndex := 1,
    tideType := "slack", sunrise := some 7200000, sunset := some 50000000 }

/-- Miserable conditions in a window starting after sunset (code-nighttime,
and also midpoint-nighttime): raw score 24, below the 30 cap. -/
def c1darkSnap : ConditionSnapshot :=
  { timestamp := 100000000, temp := 40, feelsLike := 40, humidity := 60, cloudCover := 80,
    weatherCode := "11d", windSpeed := 40, windGust := none, uvIndex := 11,
    tideType := "high", sunrise := some 40000000, sunset := some 90000000 }

/-- Earlier snapshot with shower rain (score 93). -/
def c2earlySnap : ConditionSnapshot :=
  { timestamp := 10000000, temp := 85, feelsLike := 85, humidity := 60, cloudCover := 10,
    weatherCode := "09d", windSpeed := 3, windGust := none, uvIndex := 1,
    tideType := "slack", sunrise := none, sunset := none }

/-- Later snapshot with clear sky (score 100). -/
def c2lateSnap : ConditionSnapshot :=
  { timestamp := 20000000, temp := 85, feelsLike := 85, humidity := 60, cloudCover := 10,
    weatherCode := "01d", windSpeed := 3, windGust := none, uvIndex := 1,
    tideType := "slack", sunrise := none, sunset := none }

theorem c1bright_ts : c1brightSnap.timestamp = 0 := rfl
theorem c1dark_ts : c1darkSnap.timestamp = 100000000 := rfl
theorem c2early_ts : c2earlySnap.timestamp = 10000000 := rfl
theorem c2late_ts : c2lateSnap.timestamp = 20000000 := rfl

theorem lookup_11d : WEATHER_SCORES "11d" = some 10 := by
  simp [WEATHER_SCORES, WEATHER_SCORES_ENTRIES, List.find?]

theorem lookup_09d : WEATHER_SCORES "09d" = some 30 := by
  simp [WEATHER_SCORES, WEATHER_SCORES_ENTRIES, List.find?]

theorem tide_high : calculateTideScore "high" = 70 := by
  simp [calculateTideScore]

theorem c1bright_score :
    (processSnapshot DEFAULT_OPTIONS c1brightSnap).score = some 100 := by
  norm_num [processSnapshot, calculateBeachScore, calculateTempScore, calculateUVScore,
    calculateWindScore, calculateTideScore, calculateWeatherScore, c4_weather_lookup,
    c1brightSnap, dOPT_prefs, dOPT_duration, TEMP_THRESHOLDS, UV_THRESHOLDS,
    WIND_THRESHOLDS, resolveWeights, DEFAULT_WEIGHTS, jsRound]

theorem c1bright_start :
    (processSnapshot DEFAULT_OPTIONS c1brightSnap).startTime = 0 := by
  norm_num [processSnapshot, calculateBeachScore, c1brightSnap, dOPT_duration]

theorem c1bright_end :
    (processSnapshot DEFAULT_OPTIONS c1brightSnap).endTime = 10800000 := by
  norm_num [processSnapshot, calculateBeachScore, c1brightSnap, dOPT_duration]

theorem c1dark_score :
    (processSnapshot DEFAULT_OPTIONS c1darkSnap).score = some 24 := by
  norm_num [processSnapshot, calculateBeachScore, calculateTempScore, calculateUVScore,
    calculateWindScore, tide_high, calculateWeatherScore, lookup_11d,
    c1darkSnap, dOPT_prefs, dOPT_duration, TEMP_THRESHOLDS, UV_THRESHOLDS,
    WIND_THRESHOLDS, resolveWeights, DEFAULT_WEIGHTS, jsRound, jsMinI]

theorem c2early_score :
    (processSnapshot DEFAULT_OPTIONS c2earlySnap).score = some 93 := by
  norm_num [processSnapshot, calculateBeachScore, calculateTempScore, calculateUVScore,
    calculateWindScore, calculateTideScore, calculateWeatherScore, lookup_09d,
    c2earlySnap, dOPT_prefs, dOPT_duration, TEMP_THRESHOLDS, UV_THRESHOLDS,
    WIND_THRESHOLDS, resolveWeights, DEFAULT_WEIGHTS, jsRound]

theorem c2early_start :
    (processSnapshot DEFAULT_OPTIONS c2earlySnap).startTime = 10000000 := by
  norm_num [processSnapshot, calculateBeachScore, c2earlySnap, dOPT_duration]

theorem c2late_score :
    (processSnapshot DEFAULT_OPTIONS c2lateSnap).score = some 100 := by
  norm_num [processSnapshot, calculateBeachScore, calculateTempScore, calculateUVScore,
    calculateWindScore, calculateTideScore, calculateWeatherScore, c4_weather_lookup,
    c2lateSnap, dOPT_prefs, dOPT_duration, TEMP_THRESHOLDS, UV_THRESHOLDS,
    WIND_THRESHOLDS, resolveWeights, DEFAULT_WEIGHTS, jsRound]

theorem c2late_start :
    (processSnapshot DEFAULT_OPTIONS c2lateSnap).startTime = 20000000 := by
  norm_num [processSnapshot, calculateBeachScore, c2lateSnap, dOPT_duration]

theorem c1bright_run :
    generateWindows 0 [c1brightSnap] DEFAULT_OPTIONS =
      [markGoNow (processSnapshot DEFAULT_OPTIONS c1brightSnap)] := by
  have hgen : generatedWindows 0 [c1brightSnap] DEFAULT_OPTIONS =
      [processSnapshot DEFAULT_OPTIONS c1brightSnap] := by
    norm_num [generatedWindows, List.filterMap_cons, c1bright_ts, dOPT_count]
  have hday : daytimeWindows 0 [c1brightSnap] DEFAULT_OPTIONS =
      [processSnapshot DEFAULT_OPTIONS c1brightSnap] := by
    unfold daytimeWindows
    rw [hgen]
    norm_num [List.filter_cons, jsGtI, c1bright_score, List.insertionSort]
  have hnight : nighttimeWindows 0 [c1brightSnap] DEFAULT_OPTIONS = [] := by
    unfold nighttimeWindows
    rw [hgen]
    norm_num [List.filter_cons, jsLeI, c1bright_score, List.insertionSort]
  have hcn : containsNow 0 (processSnapshot DEFAULT_OPTIONS c1brightSnap) = true := by
    norm_num [containsNow, c1bright_start, c1bright_end]
  unfold generateWindows goNowMarked
  rw [hday, hnight, List.find?_cons_of_pos _ hcn]
  simp [markFound, hcn]

theorem c1dark_run :
    generateWindows 0 [c1darkSnap] DEFAULT_OPTIONS =
      [processSnapshot DEFAULT_OPTIONS c1darkSnap] := by
  have hgen : generatedWindows 0 [c1darkSnap] DEFAULT_OPTIONS =
      [processSnapshot DEFAULT_OPTIONS c1darkSnap] := by
    norm_num [generatedWindows, List.filterMap_cons, c1dark_ts, dOPT_count]
  have hday : daytimeWindows 0 [c1darkSnap] DEFAULT_OPTIONS = [] := by
    unfold daytimeWindows
    rw [hgen]
    norm_num [List.filter_cons, jsGtI, c1dark_score, List.insertionSort]
  have hnight : nighttimeWindows 0 [c1darkSnap] DEFAULT_OPTIONS =
      [processSnapshot DEFAULT_OPTIONS c1darkSnap] := by
    unfold nighttimeWindows
    rw [hgen]
    norm_num [List.filter_cons, jsLeI, c1dark_score, List.insertionSort]
  unfold generateWindows goNowMarked
  rw [hday, hnight]
  simp [List.find?_nil, markFound]

theorem c2_run :
    generateWindows 0 [c2earlySnap, c2lateSnap] DEFAULT_OPTIONS =
      [processSnapshot DEFAULT_OPTIONS c2lateSnap,
       processSnapshot DEFAULT_OPTIONS c2earlySnap] := by
  have hgen : generatedWindows 0 [c2earlySnap, c2lateSnap] DEFAULT_OPTIONS =
      [processSnapshot DEFAULT_OPTIONS c2earlySnap,
       processSnapshot DEFAULT_OPTIONS c2lateSnap] := by
    norm_num [generatedWindows, List.filterMap_cons, c2early_ts, c2late_ts, dOPT_count]
  have hday : daytimeWindows 0 [c2earlySnap, c2lateSnap] DEFAULT_OPTIONS =
      [processSnapshot DEFAULT_OPTIONS c2lateSnap,
       processSnapshot DEFAULT_OPTIONS c2earlySnap] := by
    unfold daytimeWindows
    rw [hgen]
    norm_num [List.filter_cons, jsGtI, c2early_score, c2late_score,
      List.insertionSort, List.orderedInsert, scoreDesc]
  have hnight : nighttimeWindows 0 [c2earlySnap, c2lateSnap] DEFAULT_OPTIONS = [] := by
    unfold nighttimeWindows
    rw [hgen]
    norm_num [List.filter_cons, jsLeI, c2early_score, c2late_score, List.insertionSort]
  have hcnL : containsNow 0 (processSnapshot DEFAULT_OPTIONS c2lateSnap) = false := by
    norm_num [containsNow, c2late_start]
  have hcnE : containsNow 0 (processSnapshot DEFAULT_OPTIONS c2earlySnap) = false := by
    norm_num [containsNow, c2early_start]
  have hssL : startsSoon 0 (processSnapshot DEFAULT_OPTIONS c2lateSnap) = false := by
    norm_num [startsSoon, c2late_start]
  have hssE : startsSoon 0 (processSnapshot DEFAULT_OPTIONS c2earlySnap) = false := by
    norm_num [startsSoon, c2early_start]
  have hfind : ([processSnapshot DEFAULT_OPTIONS c2lateSnap,
      processSnapshot DEFAULT_OPTIONS c2earlySnap]).find? (containsNow 0) = none := by
    rw [List.find?_cons_of_neg, List.find?_cons_of_neg, List.find?_nil]
    · simp [hcnE]
    · simp [hcnL]
  unfold generateWindows goNowMarked
  rw [hday, hnight, hfind]
  simp [markFound, hssL, hssE]

/-! ## C1 and C2: counterexamples and witnesses -/

/-- C1 (counterexample): the bright run's window has its midpoint before that
day's sunrise — nighttime by the claim's midpoint rule — yet it is returned
with score 100 (no forcing to 30); the dark run's window is nighttime by both
rules, yet is returned with score 24, not the claimed flat 30 (the code caps
with `Math.min(score, 30)`). -/
theorem C1_counterexample :
    ((0:ℚ) + 10800000) / 2 < 7200000 ∧
    (generateWindows 0 [c1brightSnap] DEFAULT_OPTIONS).map (fun w => w.score) =
      [some 100] ∧
    (90000000:ℚ) < (100000000 + 110800000) / 2 ∧
    (generateWindows 0 [c1darkSnap] DEFAULT_OPTIONS).map (fun w => w.score) =
      [some 24] := by
  refine ⟨by norm_num, ?_, by norm_num, ?_⟩
  · rw [c1bright_run]
    simp [markGoNow, c1bright_score]
  · rw [c1dark_run]
    simp [c1dark_score]

/-- C1 witness: the amended cap theorem applied to the dark run's window. -/
theorem C1_nighttime_cap_witness :
    nighttimeBadge ∈ (processSnapshot DEFAULT_OPTIONS c1darkSnap).badges ∧
    (processSnapshot DEFAULT_OPTIONS c1darkSnap).score =
      jsMinI (calculateBeachScore (processSnapshot DEFAULT_OPTIONS c1darkSnap).conditions
        DEFAULT_OPTIONS.preferences).window.score 30 := by
  have hmem : processSnapshot DEFAULT_OPTIONS c1darkSnap ∈
      generateWindows 0 [c1darkSnap] DEFAULT_OPTIONS := by
    rw [c1dark_run]
    exact List.mem_singleton.mpr rfl
  have hc := processSnapshot_conditions DEFAULT_OPTIONS c1darkSnap
  exact C1_nighttime_cap 0 DEFAULT_OPTIONS [c1darkSnap] _ hmem 40000000 90000000
    (by rw [hc]; rfl) (by rw [hc]; rfl)
    (by rw [hc]; left; norm_num [c1darkSnap])

/-- C2 (counterexample): with both snapshots in daytime and the later one
scoring higher, the returned list is [later, earlier] — start times strictly
decreasing, so the output is not chronologically sorted. -/
theorem C2_counterexample :
    ¬ List.Sorted (fun a b => a.startTime ≤ b.startTime)
      (generateWindows 0 [c2earlySnap, c2lateSnap] DEFAULT_OPTIONS) := by
  rw [c2_run]
  intro hs
  have h := List.rel_of_sorted_cons hs _ (List.mem_cons_self _ _)
  rw [c2late_start, c2early_start] at h
  norm_num at h

/-- C2 witness: the amended ordering decomposition at the concrete run. -/
theorem C2_order_structure_witness :
    ∃ d n, generateWindows 0 [c2earlySnap, c2lateSnap] DEFAULT_OPTIONS = d ++ n ∧
      (∀ w ∈ d, jsGtI w.score 30 = true) ∧
      (∀ w ∈ n, jsLeI w.score 30 = true) ∧
      List.Sorted scoreDesc d ∧ List.Sorted timeAsc n :=
  C2_order_structure 0 [c2earlySnap, c2lateSnap] DEFAULT_OPTIONS

/-- C10 witness: the count bound and provenance at the concrete two-snapshot run. -/
theorem C10_window_count_witness :
    (generateWindows 0 [c2earlySnap, c2lateSnap] DEFAULT_OPTIONS).length ≤
      min DEFAULT_OPTIONS.count ([c2earlySnap, c2lateSnap]).length ∧
    ∃ s ∈ ([c2earlySnap, c2lateSnap]).take DEFAULT_OPTIONS.count,
      (processSnapshot DEFAULT_OPTIONS c2lateSnap).conditions = s :=
  ⟨(C10_window_count 0 [c2earlySnap, c2lateSnap] DEFAULT_OPTIONS).1,
   (C10_window_count 0 [c2earlySnap, c2lateSnap] DEFAULT_OPTIONS).2 _
     (by rw [c2_run]; exact List.mem_cons_self _ _)⟩
